import Mathlib

/-!
# Verification of the Component-Web real-time connection layer

Shallow embedding of the reconnecting WebSocket client
(`src/frontend/src/utils/websocket.ts`), the heartbeat wrapper
(`AutoReconnectWebSocket`), and the console message store
(`stores/websocket` / console view), together with proofs of the
specification's claims about them.
-/

namespace ComponentWeb

/-- `WSConnectionStatus` from `@/types`: `{connected, reconnecting, error?}`.
The optional `error` field is `none` when the source omits it. -/
structure WSConnectionStatus where
  connected : Bool
  reconnecting : Bool
  error : Option String := none
deriving DecidableEq, Repr

/-- State of one `WebSocketClient` instance, together with its observable
history.  `wsCurrent` models `this.ws !== null`; `socketsCreated` counts
executions of `new WebSocket(this.url)`; `pendingTimer` models a scheduled
`setTimeout` reconnect callback (with its delay in ms); `closeCalls` records
every `this.ws.close(code, reason)` issued; `statusLog` records every status
passed to `updateConnectionStatus` (hence every notification delivered to the
connection handlers), in order. -/
structure ClientState where
  wsCurrent : Bool
  socketsCreated : Nat
  reconnectAttempts : Nat
  connectionStatus : WSConnectionStatus
  pendingTimer : Option Nat
  closeCalls : List (Nat × String)
  statusLog : List WSConnectionStatus
deriving DecidableEq, Repr

/-- `maxReconnectAttempts = 5` in the source. -/
def maxReconnectAttempts : Nat := 5

/-- `reconnectDelay = 1000` (ms) in the source. -/
def reconnectDelay : Nat := 1000

/-- Fresh client as built by the constructor: no socket, zero attempts,
status `{connected: false, reconnecting: false}`. -/
def initClient : ClientState :=
  { wsCurrent := false
    socketsCreated := 0
    reconnectAttempts := 0
    connectionStatus := { connected := false, reconnecting := false }
    pendingTimer := none
    closeCalls := []
    statusLog := [] }

/-- `updateConnectionStatus(status)`: store the status and notify every
connection handler (recorded in `statusLog`). -/
def updateConnectionStatus (s : ClientState) (st : WSConnectionStatus) : ClientState :=
  { s with connectionStatus := st, statusLog := s.statusLog ++ [st] }

/-- `connect()` (lines 23-35 of websocket.ts, the synchronous part): set
status to `{connected: false, reconnecting: true}` and unconditionally build
`new WebSocket(this.url)`.  There is no in-flight guard in the source. -/
def connect (s : ClientState) : ClientState :=
  let s1 := updateConnectionStatus s { connected := false, reconnecting := true }
  { s1 with wsCurrent := true, socketsCreated := s1.socketsCreated + 1 }

/-- `onopen` handler: reset `reconnectAttempts` to 0 and set status to
`{connected: true, reconnecting: false}`. -/
def onOpen (s : ClientState) : ClientState :=
  updateConnectionStatus { s with reconnectAttempts := 0 }
    { connected := true, reconnecting := false }

/-- `attemptReconnect()`: if the attempt counter has reached the maximum,
report the terminal error status; otherwise increment the counter, compute
`delay = reconnectDelay * 2 ^ (reconnectAttempts - 1)` from the incremented
counter, set status to `{connected: false, reconnecting: true}` and schedule
`setTimeout(connect, delay)`. -/
def attemptReconnect (s : ClientState) : ClientState :=
  if s.reconnectAttempts ≥ maxReconnectAttempts then
    updateConnectionStatus s
      { connected := false, reconnecting := false
        error := some "Max reconnection attempts reached" }
  else
    let s1 := { s with reconnectAttempts := s.reconnectAttempts + 1 }
    let delay := reconnectDelay * 2 ^ (s1.reconnectAttempts - 1)
    let s2 := updateConnectionStatus s1 { connected := false, reconnecting := true }
    { s2 with pendingTimer := some delay }

/-- `onclose` handler: set status to `{connected: false, reconnecting: false}`
(no error field), then reconnect only when the close was not the manual code
1000 and the attempt counter is still below the maximum. -/
def onClose (s : ClientState) (code : Nat) : ClientState :=
  let s1 := updateConnectionStatus s { connected := false, reconnecting := false }
  if code ≠ 1000 ∧ s1.reconnectAttempts < maxReconnectAttempts then
    attemptReconnect s1
  else
    s1

/-- `onerror` handler: status `{connected; false, reconnecting: false,
error: 'Connection error'}` and reject the pending promise. -/
def onError (s : ClientState) : ClientState :=
  updateConnectionStatus s
    { connected := false, reconnecting := false, error := some "Connection error" }

/-- `disconnect()`: when a socket exists, call `close(1000, 'Manual
disconnect')` on it and drop the reference; then set status to
`{connected: false, reconnecting: false}`.  Nothing is ever scheduled. -/
def disconnect (s : ClientState) : ClientState :=
  let s1 :=
    if s.wsCurrent then
      { s with wsCurrent := false, closeCalls := s.closeCalls ++ [(1000, "Manual disconnect")] }
    else
      s
  updateConnectionStatus s1 { connected := false, reconnecting := false }

/-- A scheduled reconnect `setTimeout` firing: the callback runs
`this.connect().catch(() => ...)` — the rejection is swallowed. -/
def timerFire (s : ClientState) : ClientState :=
  connect { s with pendingTimer := none }

/-- External events driving one client instance: explicit `connect()` and
`disconnect()` calls, the transport callbacks, and a scheduled reconnection
timer firing. -/
inductive Ev where
  | connectCall
  | openEv
  | closeEv (code : Nat)
  | errorEv
  | disconnectCall
  | timerFireEv
deriving DecidableEq, Repr

/-- One event step of the client. -/
def step (s : ClientState) : Ev → ClientState
  | .connectCall => connect s
  | .openEv => onOpen s
  | .closeEv code => onClose s code
  | .errorEv => onError s
  | .disconnectCall => disconnect s
  | .timerFireEv => timerFire s

/-- Run the client from a state through a list of events. -/
def run (s : ClientState) (evs : List Ev) : ClientState :=
  evs.foldl step s

/-- A status never claims `connected` and `reconnecting` simultaneously. -/
def statusOk (st : WSConnectionStatus) : Prop :=
  ¬(st.connected = true ∧ st.reconnecting = true)

instance (st : WSConnectionStatus) : Decidable (statusOk st) := by
  unfold statusOk; infer_instance

/-- Every status in a notification log is consistent. -/
def logOk (log : List WSConnectionStatus) : Prop :=
  ∀ st ∈ log, statusOk st

/-- Invariant for C7: the current status and every status ever delivered to
the connection handlers satisfy `statusOk`. -/
def clientInv (s : ClientState) : Prop :=
  statusOk s.connectionStatus ∧ logOk s.statusLog

/-- The event trace of C1: an explicit `connect()` whose attempt fails
(error then abnormal close 1006), followed by exactly
`maxReconnectAttempts = 5` scheduled reconnection attempts, each of which
also fails abnormally with no successful open. -/
def fiveFailTrace : List Ev :=
  [Ev.connectCall, Ev.errorEv, Ev.closeEv 1006,
   Ev.timerFireEv, Ev.errorEv, Ev.closeEv 1006,
   Ev.timerFireEv, Ev.errorEv, Ev.closeEv 1006,
   Ev.timerFireEv, Ev.errorEv, Ev.closeEv 1006,
   Ev.timerFireEv, Ev.errorEv, Ev.closeEv 1006,
   Ev.timerFireEv, Ev.errorEv, Ev.closeEv 1006]

/-- The client state reached after the five consecutive failed reconnection
attempts of `fiveFailTrace`. -/
def exhaustedState : ClientState :=
  run initClient fiveFailTrace

/-- `ConsoleMessage.data` from `@/types`: `{level, source, message}`. -/
structure ConsoleMessageData where
  level : String
  source : String
  message : String
deriving DecidableEq, Repr

/-- `ConsoleMessage` from `@/types`: `{type, timestamp, data}`. -/
structure ConsoleMessage where
  type : String
  timestamp : String
  data : ConsoleMessageData
deriving DecidableEq, Repr

/-- `maxConsoleMessages = 1000` in the store. -/
def maxConsoleMessages : Nat := 1000

/-- `addConsoleMessage(message)` from the websocket store: push the message,
then, when the cap is exceeded, `splice(0, length - maxConsoleMessages)`
removes the oldest excess entries in one batch. -/
def addConsoleMessage (buf : List ConsoleMessage) (m : ConsoleMessage) : List ConsoleMessage :=
  let buf2 := buf ++ [m]
  if buf2.length > maxConsoleMessages then
    buf2.drop (buf2.length - maxConsoleMessages)
  else
    buf2

/-- Slice of the websocket store's state used by the console channel:
`consoleWs.value !== null`, the reactive `consoleStatus`, and the bounded
`consoleMessages` buffer. -/
structure StoreState where
  consoleWsExists : Bool
  consoleStatus : WSConnectionStatus
  consoleMessages : List ConsoleMessage
deriving DecidableEq, Repr

/-- `isConsoleConnected` computed property: `consoleStatus.value.connected`. -/
def isConsoleConnected (st : StoreState) : Bool :=
  st.consoleStatus.connected

/-- `initConsoleWebSocket()`: returns immediately when a console client
already exists; otherwise creates the client, registers handlers and starts
`connect()` (whose synchronous part sets the reconnecting status). -/
def initConsoleWebSocket (st : StoreState) : StoreState :=
  if st.consoleWsExists then
    st
  else
    { st with
        consoleWsExists := true
        consoleStatus := { connected := false, reconnecting := true } }

/-- `sendConsoleCommand(command)` from the store: fails (returns `false`)
when no console client exists or the channel is not connected; otherwise
sends the command frame and returns `true`.  The store itself does not touch
the message buffer. -/
def sendConsoleCommand (st : StoreState) (command : String) : Bool :=
  if !st.consoleWsExists || !(isConsoleConnected st) then
    false
  else
    true

/-- `maxHistorySize = 50` in the console view. -/
def maxHistorySize : Nat := 50

/-- Local state of the console view: the input line, the command history and
the history cursor. -/
structure ConsoleViewState where
  currentCommand : String
  commandHistory : List String
  historyIndex : Int
deriving DecidableEq, Repr

/-- The synthetic local echo entry the console view appends after a
successful send: `{type:'console_log', data:{level:'COMMAND',
source:'Client', message:'> ' + command}}`. -/
def echoMessage (command now : String) : ConsoleMessage :=
  { type := "console_log"
    timestamp := now
    data := { level := "COMMAND", source := "Client", message := "> " ++ command } }

/-- Body of `sendCommand()` from the console view, applied to the trimmed
input `command`: ignore empty lines; refuse when the channel is not
connected; record the command in the deduplicated, capped history; then call
the store's `sendConsoleCommand` and, only on success, clear the input and
append the synthetic echo entry via `addConsoleMessage`. -/
def sendCommandCore (store : StoreState) (view : ConsoleViewState) (command now : String) :
    StoreState × ConsoleViewState :=
  if command = "" then
    (store, view)
  else if !store.consoleStatus.connected then
    (store, view)
  else
    let history :=
      if view.commandHistory.getLast? ≠ some command then
        let h := view.commandHistory ++ [command]
        if h.length > maxHistorySize then h.drop 1 else h
      else
        view.commandHistory
    let view1 := { view with commandHistory := history, historyIndex := -1 }
    if sendConsoleCommand store command then
      ({ store with
          consoleMessages := addConsoleMessage store.consoleMessages (echoMessage command now) },
        { view1 with currentCommand := "" })
    else
      (store, view1)

/-- `sendCommand()` from the console view: `const command =
currentCommand.value.trim()`, then the body above. -/
def viewSendCommand (store : StoreState) (view : ConsoleViewState) (now : String) :
    StoreState × ConsoleViewState :=
  sendCommandCore store view view.currentCommand.trim now

/-- The sample console message of the spec's scenario. -/
def sampleConsoleMessage : ConsoleMessage :=
  { type := "console_log"
    timestamp := "2025-01-01T00:00:00Z"
    data := { level := "INFO", source := "Server", message := "Hello" } }

/-- A registered message handler, as observed by the dispatch loop: it either
returns normally (`Except.ok`) or raises (`Except.error`), in which case the
`try`/`catch` around the call logs the error. -/
def HandlerFun : Type :=
  ConsoleMessage → Except String Unit

/-- `handleMessage`: `messageHandlers.forEach`, each call wrapped in its own
`try`/`catch` — every handler is invoked, in registration order, and a raise
becomes a logged value instead of propagating. -/
def handleMessage (handlers : List HandlerFun) (m : ConsoleMessage) :
    List (Except String Unit) :=
  handlers.map (fun h => h m)

/-- `pingIntervalMs = 30000` in `AutoReconnectWebSocket`. -/
def pingIntervalMs : Nat := 30000

/-- State of the heartbeat wrapper: the underlying client's `isConnected()`
and whether `pingInterval` is registered. -/
structure HBState where
  connected : Bool
  pingTimerActive : Bool
deriving DecidableEq, Repr

/-- `startPing()`: clear any previous interval, then register a new one. -/
def startPing (s : HBState) : HBState :=
  { s with pingTimerActive := true }

/-- `stopPing()`: clear the interval when present. -/
def stopPing (s : HBState) : HBState :=
  { s with pingTimerActive := false }

/-- `connect()` of the wrapper, when `super.connect()` resolves: the
underlying client is connected, and only then is `startPing()` reached. -/
def hbConnectResolved (s : HBState) : HBState :=
  startPing { s with connected := true }

/-- `connect()` of the wrapper, when `super.connect()` rejects: `startPing()`
is never reached; the underlying client reports not connected. -/
def hbConnectRejected (s : HBState) : HBState :=
  { s with connected := false }

/-- `super.disconnect()` of the underlying client. -/
def hbUnderlyingDisconnect (s : HBState) : HBState :=
  { s with connected := false }

/-- `disconnect()` of the wrapper: `stopPing()` first, then the underlying
`super.disconnect()`. -/
def hbDisconnect (s : HBState) : HBState :=
  hbUnderlyingDisconnect (stopPing s)

/-- An abnormal transport closure seen by the wrapper: the underlying
client's status drops to not connected; the interval is not touched. -/
def hbAbnormalClose (s : HBState) : HBState :=
  { s with connected := false }

/-- The interval callback firing: a ping frame is sent exactly when the
interval is registered and `isConnected()` is true. -/
def hbTickSendsPing (s : HBState) : Bool :=
  s.pingTimerActive && s.connected

/-- Events seen by the heartbeat wrapper. -/
inductive HBEv where
  | connectOk
  | connectFail
  | abnormalClose
  | disconnectCall
  | tick
deriving DecidableEq, Repr

/-- One event step of the heartbeat wrapper. -/
def hbStep (s : HBState) : HBEv → HBState
  | .connectOk => hbConnectResolved s
  | .connectFail => hbConnectRejected s
  | .abnormalClose => hbAbnormalClose s
  | .disconnectCall => hbDisconnect s
  | .tick => s

/-- Pings emitted by one event. -/
def hbPingCount (s : HBState) : HBEv → Nat
  | .tick => if hbTickSendsPing s then 1 else 0
  | _ => 0

/-- Total number of ping frames sent while running an event sequence. -/
def hbPingsDuring : HBState → List HBEv → Nat
  | _, [] => 0
  | s, e :: rest => hbPingCount s e + hbPingsDuring (hbStep s e) rest

theorem logOk_append (log : List WSConnectionStatus) (st : WSConnectionStatus)
    (h1 : logOk log) (h2 : statusOk st) : logOk (log ++ [st]) := by
  intro x hx
  rcases List.mem_append.mp hx with hx | hx
  · exact h1 x hx
  · rw [List.mem_singleton.mp hx]; exact h2

theorem statusOk_ff (e : Option String) :
    statusOk { connected := false, reconnecting := false, error := e } := by
  simp [statusOk]

theorem statusOk_ft (e : Option String) :
    statusOk { connected := false, reconnecting := true, error := e } := by
  simp [statusOk]

theorem statusOk_tf (e : Option String) :
    statusOk { connected := true, reconnecting := false, error := e } := by
  simp [statusOk]

theorem clientInv_step (s : ClientState) (e : Ev) (hs : clientInv s) :
    clientInv (step s e) := by
  cases e with
  | connectCall =>
      exact ⟨statusOk_ft none, logOk_append s.statusLog _ hs.2 (statusOk_ft none)⟩
  | openEv =>
      exact ⟨statusOk_tf none, logOk_append s.statusLog _ hs.2 (statusOk_tf none)⟩
  | closeEv code =>
      simp only [step, onClose]
      split
      · simp only [attemptReconnect]
        split
        · exact ⟨statusOk_ff _,
            logOk_append _ _ (logOk_append s.statusLog _ hs.2 (statusOk_ff none))
              (statusOk_ff _)⟩
        · exact ⟨statusOk_ft none,
            logOk_append _ _ (logOk_append s.statusLog _ hs.2 (statusOk_ff none))
              (statusOk_ft none)⟩
      · exact ⟨statusOk_ff none, logOk_append s.statusLog _ hs.2 (statusOk_ff none)⟩
  | errorEv =>
      exact ⟨statusOk_ff _, logOk_append s.statusLog _ hs.2 (statusOk_ff _)⟩
  | disconnectCall =>
      simp only [step, disconnect]
      split
      · exact ⟨statusOk_ff none, logOk_append _ _ hs.2 (statusOk_ff none)⟩
      · exact ⟨statusOk_ff none, logOk_append s.statusLog _ hs.2 (statusOk_ff none)⟩
  | timerFireEv =>
      exact ⟨statusOk_ft none, logOk_append s.statusLog _ hs.2 (statusOk_ft none)⟩

theorem clientInv_run (s : ClientState) (evs : List Ev) (hs : clientInv s) :
    clientInv (run s evs) := by
  induction evs generalizing s with
  | nil => exact hs
  | cons e rest ih => exact ih (step s e) (clientInv_step s e hs)

theorem clientInv_init : clientInv initClient := by
  constructor
  · exact statusOk_ff none
  · intro st hst; simp [initClient] at hst

/-- C7: in every reachable state of a client, the current connection status
and every status ever delivered to the handlers have `connected` and
`reconnecting` not both true. -/
theorem connected_reconnecting_mutually_exclusive (evs : List Ev) :
    statusOk (run initClient evs).connectionStatus ∧
    ∀ st ∈ (run initClient evs).statusLog, statusOk st :=
  clientInv_run initClient evs clientInv_init

/-- Witness for C7: a concrete run through connect, open, abnormal close and
reconnect keeps `connected` and `reconnecting` mutually exclusive. -/
theorem connected_reconnecting_mutually_exclusive_witness :
    statusOk (run initClient
      [Ev.connectCall, Ev.openEv, Ev.closeEv 1006, Ev.timerFireEv]).connectionStatus :=
  (connected_reconnecting_mutually_exclusive
    [Ev.connectCall, Ev.openEv, Ev.closeEv 1006, Ev.timerFireEv]).1

/-- C3: for every reconnection attempt `k` with `1 ≤ k ≤ 5`, starting from a
state whose counter records `k - 1` previous attempts, `attemptReconnect`
first increments the counter to `k` and then schedules the retry after
`reconnectDelay * 2 ^ (k - 1)` milliseconds. -/
theorem backoff_delay_formula (k : Nat) (s : ClientState)
    (hk1 : 1 ≤ k) (hk5 : k ≤ maxReconnectAttempts)
    (hs : s.reconnectAttempts = k - 1) :
    (attemptReconnect s).reconnectAttempts = k ∧
    (attemptReconnect s).pendingTimer = some (reconnectDelay * 2 ^ (k - 1)) := by
  unfold attemptReconnect
  split
  · next h =>
      exfalso
      rw [hs] at h
      unfold maxReconnectAttempts at h hk5
      omega
  · refine ⟨?_, ?_⟩
    · simp [updateConnectionStatus, hs]
      omega
    · simp [updateConnectionStatus, hs]

/-- Witness for C3 at attempt 3: the counter goes from 2 to 3 and the delay
is 4000 ms. -/
theorem backoff_delay_formula_witness :
    (1 ≤ 3 ∧ 3 ≤ maxReconnectAttempts ∧
      ({ initClient with reconnectAttempts := 2 } : ClientState).reconnectAttempts = 3 - 1) ∧
    (attemptReconnect { initClient with reconnectAttempts := 2 }).reconnectAttempts = 3 ∧
    (attemptReconnect { initClient with reconnectAttempts := 2 }).pendingTimer
      = some (reconnectDelay * 2 ^ (3 - 1)) :=
  ⟨by refine ⟨by decide, by decide, ?_⟩; rfl,
    backoff_delay_formula 3 { initClient with reconnectAttempts := 2 }
      (by decide) (by decide) rfl⟩

/-- C10: on an abnormal closure (code other than 1000) that leads to a
reconnection attempt, the connection handlers are first notified with the
transient `{connected:false, reconnecting:false}` status and only then with
the `{connected:false, reconnecting:true}` status of the scheduled retry. -/
theorem disconnected_notified_before_reconnecting (s : ClientState) (c : Nat)
    (hc : c ≠ 1000) (hlt : s.reconnectAttempts < maxReconnectAttempts) :
    (onClose s c).statusLog = s.statusLog ++
      [{ connected := false, reconnecting := false, error := none },
       { connected := false, reconnecting := true, error := none }] := by
  simp only [onClose]
  split
  · next h =>
      simp only [attemptReconnect]
      split
      · next h2 =>
          exfalso
          simp only [updateConnectionStatus] at h2
          omega
      · simp [updateConnectionStatus]
  · next h =>
      exact absurd ⟨hc, hlt⟩ h

/-- Witness for C10: from a fresh client, an abnormal close with code 1006
notifies the handlers of the disconnected status before the reconnecting
status. -/
theorem disconnected_notified_before_reconnecting_witness :
    (1006 : Nat) ≠ 1000 ∧ initClient.reconnectAttempts < maxReconnectAttempts ∧
    (onClose initClient 1006).statusLog = initClient.statusLog ++
      [{ connected := false, reconnecting := false, error := none },
       { connected := false, reconnecting := true, error := none }] :=
  ⟨by decide, by decide,
    disconnected_notified_before_reconnecting initClient 1006 (by decide) (by decide)⟩

/-- C1 counterexample: after exactly five consecutive failed reconnection
attempts (trace `fiveFailTrace`), the final status has `reconnecting = false`
but its `error` field is `none` — the terminal error branch of
`attemptReconnect` is unreachable because `onclose` only calls it while the
counter is below the maximum — and a fresh `connect()` does not reset the
attempt counter (only a successful open does). -/
theorem reconnect_exhaustion_claim_false :
    exhaustedState.connectionStatus.reconnecting = false ∧
    exhaustedState.connectionStatus.error = none ∧
    (connect exhaustedState).reconnectAttempts ≠ 0 := by
  decide

/-- C1 amended: after exactly `maxReconnectAttempts = 5` consecutive failed
reconnection attempts the client goes quiescent — `reconnecting = false`, no
reconnect timer pending, the attempt counter stuck at the maximum, and the
`error` field left unset (`none`); any further close schedules nothing and
only notifies the plain disconnected status; an explicit `connect()` leaves
the counter at the maximum, and only a successful open resets it to 0. -/
theorem reconnect_exhaustion_amended :
    exhaustedState.connectionStatus =
      { connected := false, reconnecting := false, error := none } ∧
    exhaustedState.pendingTimer = none ∧
    exhaustedState.reconnectAttempts = maxReconnectAttempts ∧
    (∀ c : Nat, (onClose exhaustedState c).pendingTimer = none ∧
      (onClose exhaustedState c).reconnectAttempts = maxReconnectAttempts ∧
      (onClose exhaustedState c).statusLog = exhaustedState.statusLog ++
        [{ connected := false, reconnecting := false, error := none }]) ∧
    (connect exhaustedState).reconnectAttempts = maxReconnectAttempts ∧
    (onOpen (connect exhaustedState)).reconnectAttempts = 0 := by
  refine ⟨by decide, by decide, by decide, ?_, by decide, by decide⟩
  intro c
  simp only [onClose]
  split
  · next h => exact absurd h.2 (by decide)
  · exact ⟨rfl, rfl, rfl⟩

/-- C2 counterexample: from a fresh client, `connect()` leaves an attempt in
flight (status reconnecting, one socket constructed); a further `connect()`
call constructs a second transport socket instead of being idempotent. -/
theorem connect_idempotence_claim_false :
    (connect initClient).connectionStatus.reconnecting = true ∧
    (connect initClient).wsCurrent = true ∧
    (connect initClient).socketsCreated = 1 ∧
    (connect (connect initClient)).socketsCreated = 2 := by
  decide

/-- C2 amended: `connect()` is not guarded against an attempt already in
flight — every call unconditionally constructs one additional transport
socket (and re-enters the reconnecting status); the at-most-one-client
discipline is enforced only by callers such as the store's
`initConsoleWebSocket`, which returns without creating anything when a
console client already exists. -/
theorem connect_always_creates_socket (s : ClientState) (st : StoreState) :
    (connect s).socketsCreated = s.socketsCreated + 1 ∧
    (connect s).wsCurrent = true ∧
    (connect s).connectionStatus =
      { connected := false, reconnecting := true, error := none } ∧
    initConsoleWebSocket (initConsoleWebSocket st) = initConsoleWebSocket st := by
  refine ⟨rfl, rfl, rfl, ?_⟩
  unfold initConsoleWebSocket
  split <;> rfl

/-- C4 counterexample: once the attempt counter has reached the maximum
(state `exhaustedState`), a close with code 1006 — not 1000 — triggers no
reconnection logic at all: no timer is scheduled, the counter is not
incremented, and the only notification is the plain disconnected status. -/
theorem abnormal_close_after_exhaustion_claim_false :
    (1006 : Nat) ≠ 1000 ∧
    (onClose exhaustedState 1006).pendingTimer = none ∧
    (onClose exhaustedState 1006).reconnectAttempts = exhaustedState.reconnectAttempts ∧
    (onClose exhaustedState 1006).statusLog = exhaustedState.statusLog ++
      [{ connected := false, reconnecting := false, error := none }] := by
  decide

/-- C4 amended: for every prior history, a manual `disconnect()` closes the
transport (when one exists) with code 1000 and reason "Manual disconnect",
sets the status to `{connected:false, reconnecting:false}`, and never
schedules a reconnection attempt; a close with a code other than 1000
triggers the reconnection logic exactly when the attempt counter is still
below `maxReconnectAttempts` — at or beyond the maximum nothing is
scheduled — and a close with code 1000 never does. -/
theorem manual_disconnect_amended (s : ClientState) (c : Nat) :
    (disconnect s).connectionStatus =
      { connected := false, reconnecting := false, error := none } ∧
    (disconnect s).pendingTimer = s.pendingTimer ∧
    (disconnect s).statusLog = s.statusLog ++
      [{ connected := false, reconnecting := false, error := none }] ∧
    (s.wsCurrent = true →
      (disconnect s).closeCalls = s.closeCalls ++ [(1000, "Manual disconnect")]) ∧
    (s.wsCurrent = false → (disconnect s).closeCalls = s.closeCalls) ∧
    (c ≠ 1000 → s.reconnectAttempts < maxReconnectAttempts →
      (onClose s c).pendingTimer = some (reconnectDelay * 2 ^ s.reconnectAttempts) ∧
      (onClose s c).reconnectAttempts = s.reconnectAttempts + 1) ∧
    (maxReconnectAttempts ≤ s.reconnectAttempts →
      (onClose s c).pendingTimer = s.pendingTimer ∧
      (onClose s c).reconnectAttempts = s.reconnectAttempts) ∧
    ((onClose s 1000).pendingTimer = s.pendingTimer ∧
      (onClose s 1000).reconnectAttempts = s.reconnectAttempts) := by
  refine ⟨?_, ?_, ?_, ?_, ?_, ?_, ?_, ?_⟩
  · unfold disconnect; split <;> rfl
  · unfold disconnect; split <;> rfl
  · unfold disconnect; split <;> rfl
  · intro hw
    unfold disconnect
    split
    · rfl
    · next h => exact absurd hw h
  · intro hw
    unfold disconnect
    split
    · next h => rw [hw] at h; exact absurd h (by decide)
    · rfl
  · intro hc hlt
    simp only [onClose]
    split
    · simp only [attemptReconnect]
      split
      · next h2 =>
          exfalso
          simp only [updateConnectionStatus] at h2
          omega
      · constructor
        · simp [updateConnectionStatus]
        · simp [updateConnectionStatus]
    · next h => exact absurd ⟨hc, hlt⟩ h
  · intro hge
    simp only [onClose]
    split
    · next h =>
        exfalso
        have h2 := h.2
        simp only [updateConnectionStatus] at h2
        omega
    · exact ⟨rfl, rfl⟩
  · simp only [onClose]
    split
    · next h => exact absurd rfl h.1
    · exact ⟨rfl, rfl⟩

/-- Witness for C4 amended: a client with one socket in flight —
`disconnect()` issues exactly `close(1000, "Manual disconnect")`, and an
abnormal close with code 1006 at attempt counter 0 schedules the first
1000 ms retry. -/
theorem manual_disconnect_amended_witness :
    ((connect initClient).wsCurrent = true ∧
      (1006 : Nat) ≠ 1000 ∧
      (connect initClient).reconnectAttempts < maxReconnectAttempts) ∧
    (disconnect (connect initClient)).closeCalls = [(1000, "Manual disconnect")] ∧
    (onClose (connect initClient) 1006).pendingTimer = some 1000 := by
  have h := manual_disconnect_amended (connect initClient) 1006
  refine ⟨⟨rfl, by decide, by decide⟩, ?_, ?_⟩
  · have h4 := h.2.2.2.1 rfl
    rw [h4]; rfl
  · have h6 := (h.2.2.2.2.2.1 (by decide) (by decide)).1
    rw [h6]; rfl

theorem addConsoleMessage_length_le (buf : List ConsoleMessage) (m : ConsoleMessage)
    (h : buf.length ≤ maxConsoleMessages) :
    (addConsoleMessage buf m).length ≤ maxConsoleMessages := by
  simp only [addConsoleMessage]
  split
  · next hgt =>
      rw [List.length_drop]
      omega
  · next hle =>
      simp only [List.length_append, List.length_singleton] at *
      omega

theorem addConsoleMessage_eq (buf : List ConsoleMessage) (m : ConsoleMessage) :
    addConsoleMessage buf m = (buf ++ [m]).drop (buf.length + 1 - maxConsoleMessages) := by
  simp only [addConsoleMessage]
  split
  · next hgt =>
      have hx : (buf ++ [m]).length - maxConsoleMessages
          = buf.length + 1 - maxConsoleMessages := by
        simp
      rw [hx]
  · next hle =>
      have h0 : buf.length + 1 - maxConsoleMessages = 0 := by
        simp only [List.length_append, List.length_singleton, Nat.not_lt] at hle
        omega
      rw [h0, List.drop_zero]

theorem foldl_addConsoleMessage (msgs : List ConsoleMessage) (buf : List ConsoleMessage)
    (h : buf.length ≤ maxConsoleMessages) :
    List.foldl addConsoleMessage buf msgs =
      (buf ++ msgs).drop (buf.length + msgs.length - maxConsoleMessages) := by
  induction msgs generalizing buf with
  | nil =>
      simp only [List.foldl_nil, List.append_nil, List.length_nil, Nat.add_zero,
        Nat.sub_eq_zero_of_le h, List.drop_zero]
  | cons m rest ih =>
      simp only [List.foldl_cons]
      rw [ih _ (addConsoleMessage_length_le buf m h)]
      by_cases hc : buf.length + 1 ≤ maxConsoleMessages
      · have he : addConsoleMessage buf m = buf ++ [m] := by
          rw [addConsoleMessage_eq buf m, Nat.sub_eq_zero_of_le hc, List.drop_zero]
        rw [he]
        have hl : (buf ++ [m]) ++ rest = buf ++ m :: rest := by simp
        rw [hl]
        have hx : (buf ++ [m]).length + rest.length - maxConsoleMessages
            = buf.length + (m :: rest).length - maxConsoleMessages := by
          simp only [List.length_append, List.length_singleton, List.length_cons,
            List.length_nil]
          omega
        rw [hx]
      · have hbeq : buf.length = maxConsoleMessages := by omega
        have he : addConsoleMessage buf m = (buf ++ [m]).drop 1 := by
          rw [addConsoleMessage_eq buf m]
          have hx : buf.length + 1 - maxConsoleMessages = 1 := by omega
          rw [hx]
        have hlen2 : (addConsoleMessage buf m).length = maxConsoleMessages := by
          rw [he, List.length_drop]
          simp only [List.length_append, List.length_singleton]
          omega
        rw [hlen2, he]
        have hsplit : ((buf ++ [m]) ++ rest).drop 1 = (buf ++ [m]).drop 1 ++ rest :=
          List.drop_append_of_le_length (by simp)
        rw [← hsplit, List.drop_drop]
        have hl : (buf ++ [m]) ++ rest = buf ++ m :: rest := by simp
        rw [hl]
        have hx : 1 + (maxConsoleMessages + rest.length - maxConsoleMessages)
            = buf.length + (m :: rest).length - maxConsoleMessages := by
          simp only [List.length_cons]
          omega
        rw [hx]

/-- C5: appending any sequence of more than 1000 console messages through
`addConsoleMessage` leaves the buffer holding exactly the last 1000 messages
in arrival order, and after any sequence of appends the buffer never exceeds
1000 entries. -/
theorem console_buffer_keeps_last_1000 (msgs : List ConsoleMessage)
    (h : maxConsoleMessages < msgs.length) :
    List.foldl addConsoleMessage [] msgs =
      msgs.drop (msgs.length - maxConsoleMessages) ∧
    (List.foldl addConsoleMessage [] msgs).length = maxConsoleMessages ∧
    ∀ anyMsgs : List ConsoleMessage,
      (List.foldl addConsoleMessage [] anyMsgs).length ≤ maxConsoleMessages := by
  have key := foldl_addConsoleMessage msgs [] (by simp)
  simp only [List.nil_append, List.length_nil, Nat.zero_add] at key
  refine ⟨key, ?_, ?_⟩
  · rw [key, List.length_drop]
    omega
  · intro anyMsgs
    have k2 := foldl_addConsoleMessage anyMsgs [] (by simp)
    simp only [List.nil_append, List.length_nil, Nat.zero_add] at k2
    rw [k2, List.length_drop]
    omega

/-- Witness for C5: 1001 identical messages leave exactly the last 1000. -/
theorem console_buffer_keeps_last_1000_witness :
    maxConsoleMessages < (List.replicate 1001 sampleConsoleMessage).length ∧
    List.foldl addConsoleMessage [] (List.replicate 1001 sampleConsoleMessage) =
      (List.replicate 1001 sampleConsoleMessage).drop
        ((List.replicate 1001 sampleConsoleMessage).length - maxConsoleMessages) := by
  constructor
  · rw [List.length_replicate]; decide
  · exact (console_buffer_keeps_last_1000 _ (by rw [List.length_replicate]; decide)).1

/-- C6: a command submitted while the console channel is not connected fails
— the store's `sendConsoleCommand` returns `false` and the view's
`sendCommand` leaves the store and the view untouched, adding no synthetic
echo entry; while connected (with a live console client) and given a
non-empty command, `sendConsoleCommand` returns `true` and the view appends
exactly the synthetic local echo entry to the console buffer. -/
theorem sendCommand_failure_no_echo (store : StoreState) (view : ConsoleViewState)
    (command now : String) :
    (viewSendCommand store view now = sendCommandCore store view view.currentCommand.trim now) ∧
    (store.consoleStatus.connected = false →
      sendConsoleCommand store command = false ∧
      sendCommandCore store view command now = (store, view)) ∧
    (store.consoleStatus.connected = true → store.consoleWsExists = true →
      command ≠ "" →
      sendConsoleCommand store command = true ∧
      (sendCommandCore store view command now).1.consoleMessages =
        addConsoleMessage store.consoleMessages (echoMessage command now)) := by
  refine ⟨rfl, ?_, ?_⟩
  · intro hc
    constructor
    · simp [sendConsoleCommand, isConsoleConnected, hc]
    · simp [sendCommandCore, hc]
  · intro hc hw hne
    constructor
    · simp [sendConsoleCommand, isConsoleConnected, hc, hw]
    · simp [sendCommandCore, hne, hc, hw, sendConsoleCommand, isConsoleConnected]

/-- Witness for C6: with the console channel disconnected, "say hi" is
refused and nothing is buffered; with it connected, the command succeeds and
the synthetic echo entry is appended to the empty buffer. -/
theorem sendCommand_failure_no_echo_witness :
    (sendConsoleCommand
        { consoleWsExists := true
          consoleStatus := { connected := false, reconnecting := false }
          consoleMessages := [] } "say hi" = false ∧
      sendCommandCore
        { consoleWsExists := true
          consoleStatus := { connected := false, reconnecting := false }
          consoleMessages := [] }
        { currentCommand := "say hi", commandHistory := [], historyIndex := -1 }
        "say hi" "t" =
        ({ consoleWsExists := true
           consoleStatus := { connected := false, reconnecting := false }
           consoleMessages := [] },
         { currentCommand := "say hi", commandHistory := [], historyIndex := -1 })) ∧
    (sendConsoleCommand
        { consoleWsExists := true
          consoleStatus := { connected := true, reconnecting := false }
          consoleMessages := [] } "say hi" = true ∧
      (sendCommandCore
        { consoleWsExists := true
          consoleStatus := { connected := true, reconnecting := false }
          consoleMessages := [] }
        { currentCommand := "say hi", commandHistory := [], historyIndex := -1 }
        "say hi" "t").1.consoleMessages =
        addConsoleMessage [] (echoMessage "say hi" "t")) := by
  constructor
  · exact (sendCommand_failure_no_echo
      { consoleWsExists := true
        consoleStatus := { connected := false, reconnecting := false }
        consoleMessages := [] }
      { currentCommand := "say hi", commandHistory := [], historyIndex := -1 }
      "say hi" "t").2.1 rfl
  · exact (sendCommand_failure_no_echo
      { consoleWsExists := true
        consoleStatus := { connected := true, reconnecting := false }
        consoleMessages := [] }
      { currentCommand := "say hi", commandHistory := [], historyIndex := -1 }
      "say hi" "t").2.2 rfl rfl (by decide)

/-- C8: the dispatch loop invokes every registered handler exactly once, in
registration order — the i-th outcome is the i-th handler applied to the
message — and a handler that raises yields a caught (logged) error value
without affecting any other handler's invocation or escaping the dispatch. -/
theorem handlers_all_invoked_in_order (handlers : List HandlerFun) (m : ConsoleMessage) :
    (handleMessage handlers m).length = handlers.length ∧
    ∀ i : Nat, (handleMessage handlers m)[i]? = Option.map (fun h => h m) handlers[i]? := by
  refine ⟨by simp [handleMessage], ?_⟩
  intro i
  simp [handleMessage]

/-- Witness for C8: with a first handler that raises, the second handler is
still invoked and its outcome recorded. -/
theorem handlers_all_invoked_in_order_witness :
    (handleMessage
      [fun _ => Except.error "boom", fun _ => Except.ok ()] sampleConsoleMessage)[1]? =
      some (Except.ok ()) := by
  have h := (handlers_all_invoked_in_order
    [fun _ => Except.error "boom", fun _ => Except.ok ()] sampleConsoleMessage).2 1
  rw [h]
  rfl

theorem hbPingsDuring_zero (evs : List HBEv) (s : HBState)
    (hs : s.pingTimerActive = false) (hno : HBEv.connectOk ∉ evs) :
    hbPingsDuring s evs = 0 := by
  induction evs generalizing s with
  | nil => rfl
  | cons e rest ih =>
      have hne : e ≠ HBEv.connectOk := by
        intro he
        exact hno (he ▸ List.mem_cons_self e rest)
      have hrest : HBEv.connectOk ∉ rest := fun hmem => hno (List.mem_cons_of_mem e hmem)
      have hstep : (hbStep s e).pingTimerActive = false := by
        cases e with
        | connectOk => exact absurd rfl hne
        | connectFail => exact hs
        | abnormalClose => exact hs
        | disconnectCall => rfl
        | tick => exact hs
      have hcount : hbPingCount s e = 0 := by
        cases e with
        | connectOk => rfl
        | connectFail => rfl
        | abnormalClose => rfl
        | disconnectCall => rfl
        | tick => simp [hbPingCount, hbTickSendsPing, hs]
      simp [hbPingsDuring, hcount, ih (hbStep s e) hstep hrest]

/-- C9: the heartbeat interval is 30000 ms; a firing interval sends a ping
only while the timer is registered and the underlying client is connected;
`disconnect()` clears the interval (before the underlying disconnect, whose
composition it is), so after a disconnect no event sequence without a new
successful connect ever sends a ping; and the interval only ever (re)starts
on a successful connect. -/
theorem heartbeat_ping_only_while_connected :
    pingIntervalMs = 30000 ∧
    (∀ s : HBState, hbTickSendsPing s = true →
      s.connected = true ∧ s.pingTimerActive = true) ∧
    (∀ s : HBState, (stopPing s).pingTimerActive = false ∧
      (hbDisconnect s).pingTimerActive = false ∧
      (hbDisconnect s).connected = false) ∧
    (∀ (s : HBState) (evs : List HBEv), HBEv.connectOk ∉ evs →
      hbPingsDuring (hbDisconnect s) evs = 0) ∧
    (∀ (s : HBState) (e : HBEv), (hbStep s e).pingTimerActive = true →
      e = HBEv.connectOk ∨ s.pingTimerActive = true) := by
  refine ⟨rfl, ?_, ?_, ?_, ?_⟩
  · intro s hping
    simp only [hbTickSendsPing, Bool.and_eq_true] at hping
    exact ⟨hping.2, hping.1⟩
  · intro s
    exact ⟨rfl, rfl, rfl⟩
  · intro s evs hno
    exact hbPingsDuring_zero evs (hbDisconnect s) rfl hno
  · intro s e hping
    cases e with
    | connectOk => exact Or.inl rfl
    | connectFail => exact Or.inr hping
    | abnormalClose => exact Or.inr hping
    | disconnectCall =>
        exact absurd hping (by simp [hbStep, hbDisconnect, hbUnderlyingDisconnect, stopPing])
    | tick => exact Or.inr hping

/-- Witness for C9: after disconnecting a connected client with a live
interval, two interval firings around an abnormal close send no ping. -/
theorem heartbeat_ping_only_while_connected_witness :
    HBEv.connectOk ∉ [HBEv.tick, HBEv.abnormalClose, HBEv.tick] ∧
    hbPingsDuring (hbDisconnect { connected := true, pingTimerActive := true })
      [HBEv.tick, HBEv.abnormalClose, HBEv.tick] = 0 :=
  ⟨by decide,
    heartbeat_ping_only_while_connected.2.2.2.1
      { connected := true, pingTimerActive := true }
      [HBEv.tick, HBEv.abnormalClose, HBEv.tick] (by decide)⟩

end ComponentWeb
